import Mathlib

/-!
Verification of the capture pipeline of a browser extension that records
visible page text during a session and writes it to one file.

The development shallowly embeds the two scripts of the repository:

* the background script (session aggregator, output serializer, download
  glue): state machine `BgState` with operations `startCaptureBg`,
  `captureText`, `stopCapture`, `getState`, serializer `formatOutput`;
* the content script (text filter, noise patterns, cross frame flash
  relay): `cleanText`, `processText`, `handleChildFlashMessage`.

JavaScript strings are modelled as `List Char` (or Lean `String`, a wrapper
around `List Char`); string lengths count characters.  The regular
expressions of the source are fixed literal patterns and are embedded as
decidable matchers, one definition per regex.  Floating point enters the
source only in the structural-character ratio test `special / total > 0.1`
and in `(size / 1024).toFixed(1)`; both are embedded as exact rational
comparisons, which agree with the double computations for every string
length and size the program can reach (lengths are bounded by 100022 and
sizes by the 10 MB budget, far below any double rounding boundary).
-/

/-! ### Characters used in patterns

A left or right curly brace character is written through `Char.ofNat`,
and the apostrophe likewise, to keep all string literals plain text. -/

def lbrace : Char := Char.ofNat 123

def rbrace : Char := Char.ofNat 125

def apos : Char := Char.ofNat 39

/-- The set matched by the JavaScript regex class backslash-s (and the set
removed by `String.prototype.trim`): ASCII whitespace, NBSP, and the
Unicode space separators including the BOM. -/
def isJsWs (c : Char) : Bool :=
  c = ' ' || c = '\t' || c = '\n' || c = '\r' ||
  c.toNat = 11 || c.toNat = 12 || c.toNat = 160 || c.toNat = 0x1680 ||
  (0x2000 ≤ c.toNat && c.toNat ≤ 0x200a) || c.toNat = 0x2028 ||
  c.toNat = 0x2029 || c.toNat = 0x202f || c.toNat = 0x205f ||
  c.toNat = 0x3000 || c.toNat = 0xfeff

/-- The zero-width characters removed by `cleanText`
(U+200B..U+200D and U+FEFF). -/
def isZeroWidth (c : Char) : Bool :=
  (0x200b ≤ c.toNat && c.toNat ≤ 0x200d) || c.toNat = 0xfeff

def isDigitC (c : Char) : Bool := '0' ≤ c && c ≤ '9'

/-- The JavaScript regex class backslash-w: `[A-Za-z0-9_]`. -/
def isWordC (c : Char) : Bool :=
  ('a' ≤ c && c ≤ 'z') || ('A' ≤ c && c ≤ 'Z') || isDigitC c || c = '_'

def isWordDash (c : Char) : Bool := isWordC c || c = '-'

/-- ASCII lower casing, the case folding relevant to the `/i` regex flags
of the source (all pattern literals are ASCII). -/
def lowerC (c : Char) : Char :=
  if 'A' ≤ c && c ≤ 'Z' then Char.ofNat (c.toNat + 32) else c

/-! ### Generic pattern-matching helpers for the embedded regexes -/

/-- Match a literal (case sensitively) at the head of the input, returning
the rest of the input on success. -/
def dropLit : List Char → List Char → Option (List Char)
  | [], s => some s
  | _ :: _, [] => none
  | p :: ps, c :: cs => if c = p then dropLit ps cs else none

/-- Match a literal case-insensitively (ASCII) at the head of the input. -/
def dropLitCI : List Char → List Char → Option (List Char)
  | [], s => some s
  | _ :: _, [] => none
  | p :: ps, c :: cs => if lowerC c = lowerC p then dropLitCI ps cs else none

def skipWs (s : List Char) : List Char := s.dropWhile isJsWs

/-- Does a position-anchored matcher succeed at some position of the
input (the semantics of an unanchored `RegExp.test`)? -/
def anySuffix (p : List Char → Bool) : List Char → Bool
  | [] => p []
  | c :: cs => p (c :: cs) || anySuffix p cs

/-! ### The 21 noise patterns (`NOISE_PATTERNS` in the content script)

One matcher per regex, in source order.  Anchored patterns (`^...`) are
whole-input matchers; unanchored ones are position matchers wrapped in
`anySuffix`.  In every pattern a greedy character-class run is followed by
a character outside the class, so the backtracking-free readings below are
exact. -/

/-- `/^#[\w-]+\s*\x7b/` -/
def nzHashRule (s : List Char) : Bool :=
  match s with
  | '#' :: rest =>
    decide (1 ≤ (rest.takeWhile isWordDash).length) &&
      (skipWs (rest.dropWhile isWordDash)).head? = some lbrace
  | _ => false

/-- `/^\.[\w-]+\s*\x7b/` -/
def nzDotRule (s : List Char) : Bool :=
  match s with
  | '.' :: rest =>
    decide (1 ≤ (rest.takeWhile isWordDash).length) &&
      (skipWs (rest.dropWhile isWordDash)).head? = some lbrace
  | _ => false

/-- `/^\@keyframes\s+/i` -/
def nzKeyframes (s : List Char) : Bool :=
  match dropLitCI ("@keyframes".data) s with
  | some r => match r.head? with
    | some c => isJsWs c
    | none => false
  | none => false

/-- `/^\@media\s*\(/i` -/
def nzMedia (s : List Char) : Bool :=
  match dropLitCI ("@media".data) s with
  | some r => (skipWs r).head? = some '('
  | none => false

/-- `/^\@font-face\s*\x7b/i` -/
def nzFontFace (s : List Char) : Bool :=
  match dropLitCI ("@font-face".data) s with
  | some r => (skipWs r).head? = some lbrace
  | none => false

/-- position matcher for `/box-sizing:\s*inherit/i` -/
def atBoxSizing (s : List Char) : Bool :=
  match dropLitCI ("box-sizing:".data) s with
  | some r => (dropLitCI ("inherit".data) (skipWs r)).isSome
  | none => false

/-- position matcher for `/font-family:\s*inherit/i` -/
def atFontFamily (s : List Char) : Bool :=
  match dropLitCI ("font-family:".data) s with
  | some r => (dropLitCI ("inherit".data) (skipWs r)).isSome
  | none => false

/-- position matcher for the case-sensitive regex `-webkit-[\w-]+:` -/
def atWebkit (s : List Char) : Bool :=
  match dropLit ("-webkit-".data) s with
  | some r =>
    decide (1 ≤ (r.takeWhile isWordDash).length) &&
      (r.dropWhile isWordDash).head? = some ':'
  | none => false

/-- `/^\s*\x7b[\s\S]*\x7d\s*$/` : optional whitespace, an opening brace,
anything, a closing brace, optional trailing whitespace. -/
def nzBraceBlock (s : List Char) : Bool :=
  match skipWs s with
  | c :: rest => c = lbrace && (rest.reverse.dropWhile isJsWs).head? = some rbrace
  | [] => false

/-- position matcher for `/w-css-reset/i` -/
def atWCssReset (s : List Char) : Bool := (dropLitCI ("w-css-reset".data) s).isSome

/-- position matcher for `/wistia_/i` -/
def atWistia (s : List Char) : Bool := (dropLitCI ("wistia_".data) s).isSome

/-- `/^\d+%\s*\x7b/` -/
def nzPctRule (s : List Char) : Bool :=
  decide (1 ≤ (s.takeWhile isDigitC).length) &&
    (match s.dropWhile isDigitC with
     | '%' :: r => (skipWs r).head? = some lbrace
     | _ => false)

/-- position matcher for `/opacity:\s*\d/` (case sensitive) -/
def atOpacity (s : List Char) : Bool :=
  match dropLit ("opacity:".data) s with
  | some r => match (skipWs r).head? with
    | some c => isDigitC c
    | none => false
  | none => false

/-- position matcher for `/animation:\s*[\w-]+/i` -/
def atAnimation (s : List Char) : Bool :=
  match dropLitCI ("animation:".data) s with
  | some r => match (skipWs r).head? with
    | some c => isWordDash c
    | none => false
  | none => false

/-- position matcher for `/transform:\s*\w+/i` -/
def atTransform (s : List Char) : Bool :=
  match dropLitCI ("transform:".data) s with
  | some r => match (skipWs r).head? with
    | some c => isWordC c
    | none => false
  | none => false

/-- position matcher for `/base64,/i` -/
def atBase64 (s : List Char) : Bool := (dropLitCI ("base64,".data) s).isSome

/-- position matcher for `/data:application\//i` -/
def atDataApp (s : List Char) : Bool := (dropLitCI ("data:application/".data) s).isSome

/-- position matcher for `/data:image\//i` -/
def atDataImg (s : List Char) : Bool := (dropLitCI ("data:image/".data) s).isSome

/-- position matcher for `/unicode-range:\s*U\+/i` -/
def atUnicodeRange (s : List Char) : Bool :=
  match dropLitCI ("unicode-range:".data) s with
  | some r => (dropLitCI ("u+".data) (skipWs r)).isSome
  | none => false

/-- position matcher for `/font-feature-settings:/i` -/
def atFontFeature (s : List Char) : Bool :=
  (dropLitCI ("font-feature-settings:".data) s).isSome

/-- position matcher for `/src:\s*url\(/i` -/
def atSrcUrl (s : List Char) : Bool :=
  match dropLitCI ("src:".data) s with
  | some r => (dropLitCI ("url(".data) (skipWs r)).isSome
  | none => false

/-- The `NOISE_PATTERNS` loop of `processText`: true when some pattern of
the fixed list tests true on the cleaned text. -/
def matchesNoise (s : List Char) : Bool :=
  nzHashRule s || nzDotRule s || nzKeyframes s || nzMedia s || nzFontFace s ||
  anySuffix atBoxSizing s || anySuffix atFontFamily s || anySuffix atWebkit s ||
  nzBraceBlock s || anySuffix atWCssReset s || anySuffix atWistia s ||
  nzPctRule s || anySuffix atOpacity s || anySuffix atAnimation s ||
  anySuffix atTransform s || anySuffix atBase64 s || anySuffix atDataApp s ||
  anySuffix atDataImg s || anySuffix atUnicodeRange s ||
  anySuffix atFontFeature s || anySuffix atSrcUrl s

/-! ### Text cleaning and the text filter (`cleanText` / `processText`) -/

def MIN_TEXT_LENGTH : Nat := 10

def MAX_TEXT_LENGTH : Nat := 100000

/-- The marker appended after truncation (22 characters). -/
def truncMarker : List Char := " [too long to capture]".data

/-- Collapsing pass of `text.replace(/\s+/g, d)` with a single space as
replacement: every maximal whitespace run becomes one space.  The flag
remembers whether the previous character was whitespace. -/
def collapseWsAux : Bool → List Char → List Char
  | _, [] => []
  | prevWs, c :: cs =>
    if isJsWs c then
      if prevWs then collapseWsAux true cs else ' ' :: collapseWsAux true cs
    else c :: collapseWsAux false cs

/-- `cleanText` of the content script: collapse whitespace runs to single
spaces, remove zero-width characters, trim both ends. -/
def cleanText (s : List Char) : List Char :=
  let collapsed := collapseWsAux false s
  let noZw := collapsed.filter (fun c => !isZeroWidth c)
  ((noZw.dropWhile isJsWs).reverse.dropWhile isJsWs).reverse

/-- The truncation step of `processText`: text longer than
`MAX_TEXT_LENGTH` is cut there and the marker is appended. -/
def truncateJs (l : List Char) : List Char :=
  if MAX_TEXT_LENGTH < l.length then l.take MAX_TEXT_LENGTH ++ truncMarker else l

/-- `/^\d+$/` -/
def matchAllDigits (s : List Char) : Bool :=
  match s with
  | [] => false
  | _ :: _ => s.all isDigitC

/-- `/^\d\x7b2\x7d:\d\x7b2\x7d$/`, the MM:SS timer shape. -/
def matchTimer (s : List Char) : Bool :=
  match s with
  | [a, b, c, d, e] => isDigitC a && isDigitC b && c = ':' && isDigitC d && isDigitC e
  | _ => false

/-- `/^ACC\s*\d*/` tests true exactly when the text starts with `ACC`
(both quantifiers may match empty). -/
def matchAccPrefix (s : List Char) : Bool := (dropLit ("ACC".data) s).isSome

/-- The indicator-update filter of `processText` (pure numbers, timer
strings, the status indicator label). -/
def indicatorNoise (s : List Char) : Bool :=
  matchAllDigits s || matchTimer s || matchAccPrefix s || s = "ACC".data

/-- Count of structural characters, `(cleaned.match(/[\x7b\x7d;:]/g) || []).length`. -/
def countSpecial (s : List Char) : Nat :=
  s.countP (fun c => c = lbrace || c = rbrace || c = ';' || c = ':')

/-- The mostly-CSS ratio test `specialChars / totalChars > 0.1`, embedded
as the exact comparison `10 * special > total` (exact for every length the
filter can see; see the header comment). -/
def mostlyCss (s : List Char) : Bool := decide (s.length < 10 * countSpecial s)

/-- One captured unit of text.  `timestamp` is epoch milliseconds (the
source stores the ISO rendering of the same instant and parses it back
when serializing). -/
structure Entry where
  timestamp : Nat
  source : String
  frameId : String
  url : String
  text : String
deriving DecidableEq, Repr

/-- Number of characters of a string, the model of JavaScript `.length`. -/
def jsLength (s : String) : Nat := s.data.length

/-- The fingerprint `text.substring(0, 100) + text.length` used by both
the per-frame memory and the session dedupe index. -/
def entryHash (text : String) : String :=
  String.mk (text.data.take 100) ++ toString (jsLength text)

/-- Per-frame state of the content script: the local dedupe memory
`seenText`. -/
structure FrameState where
  seenText : List String
deriving DecidableEq, Repr

/-- `processText` of the content script: clean, truncate, apply the
minimum length bound, the indicator filter, the noise patterns, the
ratio test and the local dedupe; survivors become a `CaptureEntry`. -/
def processText (st : FrameState) (now : Nat) (frameId url source : String)
    (text : List Char) : FrameState × Option Entry :=
  let cleaned := truncateJs (cleanText text)
  if cleaned.length < MIN_TEXT_LENGTH then (st, none)
  else if indicatorNoise cleaned then (st, none)
  else if matchesNoise cleaned then (st, none)
  else if mostlyCss cleaned then (st, none)
  else if st.seenText.contains (entryHash (String.mk cleaned)) then (st, none)
  else ({ seenText := entryHash (String.mk cleaned) :: st.seenText },
        some { timestamp := now, source := source, frameId := frameId,
               url := url, text := String.mk cleaned })

/-! ### Time rendering and number formatting used by the serializer -/

def pad2 (n : Nat) : String := if n < 10 then "0" ++ toString n else toString n

def pad3num (n : Nat) : String :=
  if n < 10 then "00" ++ toString n
  else if n < 100 then "0" ++ toString n else toString n

def pad4 (n : Nat) : String :=
  if n < 10 then "000" ++ toString n
  else if n < 100 then "00" ++ toString n
  else if n < 1000 then "0" ++ toString n else toString n

/-- Modelled from the platform: `Date.prototype.toISOString` for
nonnegative epoch milliseconds (UTC, proleptic Gregorian calendar,
civil-from-days algorithm). -/
def toISO (ms : Nat) : String :=
  let milli := ms % 1000
  let totalSec := ms / 1000
  let sec := totalSec % 60
  let totalMin := totalSec / 60
  let minute := totalMin % 60
  let totalHour := totalMin / 60
  let hour := totalHour % 24
  let days := totalHour / 24
  let z := days + 719468
  let era := z / 146097
  let doe := z % 146097
  let yoe := (doe - doe / 1460 + doe / 36524 - doe / 146096) / 365
  let y := yoe + era * 400
  let doy := doe - (365 * yoe + yoe / 4 - yoe / 100)
  let mp := (5 * doy + 2) / 153
  let dom := doy - (153 * mp + 2) / 5 + 1
  let month := if mp < 10 then mp + 3 else mp - 9
  let year := if month ≤ 2 then y + 1 else y
  pad4 year ++ "-" ++ pad2 month ++ "-" ++ pad2 dom ++ "T" ++
    pad2 hour ++ ":" ++ pad2 minute ++ ":" ++ pad2 sec ++ "." ++
    pad3num milli ++ "Z"

/-- Modelled from the platform: `Math.round(d / 1000)` for an integer
millisecond difference `d` (JavaScript rounds half toward positive
infinity). -/
def jsRoundDiv1000 (d : Int) : Int := Int.fdiv (2 * d + 1000) 2000

/-- Modelled from the platform: `(n / 1024).toFixed(1)` for a byte count
`n`; division by 1024 is exact in doubles and `toFixed` picks the larger
integer on ties, so this is `floor((10n/1024) + 1/2)` split into integer
and tenth digits. -/
def toFixed1KB (n : Nat) : String :=
  let d := (20 * n + 1024) / 2048
  toString (d / 10) ++ "." ++ toString (d % 10)

/-- `String(i + 1).padStart(3, "0")`. -/
def padStart3 (s : String) : String :=
  if s.data.length < 3 then String.mk (List.replicate (3 - s.data.length) '0') ++ s else s

/-- `Array.prototype.join("\n")`. -/
def joinNL : List String → String
  | [] => ""
  | [a] => a
  | a :: b :: rest => a ++ "\n" ++ joinNL (b :: rest)

def headerTitle : String := "ADRIAN" ++ String.singleton apos ++ "S COURSE CAPTURE"

/-! ### The output serializer (`formatOutput` in the background script) -/

/-- The per-entry tag line
`[ordinal] +offsetSeconds s | frameId | url` (`i` is the 0-based index). -/
def entryTag (startMs : Nat) (i : Nat) (e : Entry) : String :=
  "[" ++ padStart3 (toString (i + 1)) ++ "] +" ++
    toString (jsRoundDiv1000 ((e.timestamp : Int) - (startMs : Int))) ++
    "s | " ++ e.frameId ++ " | " ++ e.url

/-- One mapped element of the body: `[tag, entry.text, ""].join("\n")`. -/
def entryBlock (startMs : Nat) (i : Nat) (e : Entry) : String :=
  joinNL [entryTag startMs i e, e.text, ""]

def entryBlocks (startMs : Nat) : Nat → List Entry → List String
  | _, [] => []
  | i, e :: es => entryBlock startMs i e :: entryBlocks startMs (i + 1) es

/-- `formatOutput` of the background script: the fixed header block
followed by the joined entry blocks. -/
def formatOutput (startMs nowMs : Nat) (entries : List Entry) (size : Nat) : String :=
  joinNL [
    String.mk (List.replicate 60 '═'),
    headerTitle,
    String.mk (List.replicate 60 '═'),
    "",
    "Started:  " ++ toISO startMs,
    "Ended:    " ++ toISO nowMs,
    "Duration: " ++ toString (jsRoundDiv1000 ((nowMs : Int) - (startMs : Int))) ++ " seconds",
    "Entries:  " ++ toString entries.length,
    "Size:     " ++ toFixed1KB size ++ " KB",
    "",
    String.mk (List.replicate 60 '─'),
    ""
  ] ++ joinNL (entryBlocks startMs 0 entries)

/-! ### The session aggregator (background script state machine) -/

def MAX_CAPTURE_SIZE : Nat := 10 * 1024 * 1024

/-- Global state of the background script. -/
structure BgState where
  isCapturing : Bool
  captureStartTime : Option Nat
  capturedText : List Entry
  seenHashes : List String
  currentCaptureSize : Nat
  activeTabId : Option Nat
deriving DecidableEq, Repr

/-- `saveCapture`: compute the document and invoke the download exactly
when there is content and at least one entry; returns the delivered
document, `none` when no download is started. -/
def saveCapture (nowMs : Nat) (s : BgState) : Option String :=
  let content := formatOutput (s.captureStartTime.getD 0) nowMs s.capturedText s.currentCaptureSize
  if content ≠ "" ∧ 0 < s.capturedText.length then some content else none

/-- `stopCapture`: no-op unless recording; otherwise save (when at least
one entry was captured), then reset all session state.  The second
component is the delivered document, `none` when no download happened. -/
def stopCapture (nowMs : Nat) (s : BgState) : BgState × Option String :=
  if s.isCapturing = false then (s, none)
  else
    ({ isCapturing := false, captureStartTime := s.captureStartTime,
       capturedText := [], seenHashes := [], currentCaptureSize := 0,
       activeTabId := none },
     if 0 < s.capturedText.length then saveCapture nowMs s else none)

/-- `startCapture(tabId)`: no-op if already recording, else reset the
session state and bind the tab. -/
def startCaptureBg (nowMs : Nat) (tabId : Nat) (s : BgState) : BgState :=
  if s.isCapturing then s
  else { isCapturing := true, captureStartTime := some nowMs,
         capturedText := [], seenHashes := [], currentCaptureSize := 0,
         activeTabId := some tabId }

/-- Result of one `captureText` message, recording which path the handler
took and what it pushed outward. -/
inductive SubmitResult where
  | notCapturing : SubmitResult
  | wrongTab : SubmitResult
  | duplicate : SubmitResult
  | autoStopped : Option String → SubmitResult
  | admitted : Nat → SubmitResult
deriving DecidableEq, Repr

def SubmitResult.isAutoStopped : SubmitResult → Bool
  | .autoStopped _ => true
  | _ => false

/-- The `captureText` message handler: drop when not recording or from a
non-active tab; drop duplicates by fingerprint; add the fingerprint, then
either auto-stop when the entry would push the size over the budget, or
admit the entry and push the updated count. -/
def captureText (nowMs : Nat) (s : BgState) (senderTab : Option Nat) (e : Entry) :
    BgState × SubmitResult :=
  if s.isCapturing = false then (s, .notCapturing)
  else
    match senderTab with
    | none => (s, .wrongTab)
    | some tid =>
      if s.activeTabId ≠ some tid then (s, .wrongTab)
      else if s.seenHashes.contains (entryHash e.text) then (s, .duplicate)
      else
        let s1 : BgState := { s with seenHashes := entryHash e.text :: s.seenHashes }
        if MAX_CAPTURE_SIZE < s1.currentCaptureSize + 2 * jsLength e.text then
          let stopped := stopCapture nowMs s1
          (stopped.1, .autoStopped stopped.2)
        else
          ({ s1 with currentCaptureSize := s1.currentCaptureSize + 2 * jsLength e.text,
                     capturedText := s1.capturedText ++ [e] },
           .admitted (s1.capturedText.length + 1))

/-- Reply of the `getState` handler. -/
structure StateReply where
  isCapturing : Bool
  startTime : Option String
  entryCount : Nat
deriving DecidableEq, Repr

/-- The `getState` handler: a popup query (no sender tab) reads the global
state; a content-script query from a tab conjoins whether that tab is the
actively bound one into `isCapturing`. -/
def getState (s : BgState) (senderTab : Option Nat) : StateReply :=
  match senderTab with
  | none =>
    { isCapturing := s.isCapturing,
      startTime := s.captureStartTime.map toISO,
      entryCount := s.capturedText.length }
  | some tid =>
    { isCapturing := s.isCapturing && s.activeTabId = some tid,
      startTime := s.captureStartTime.map toISO,
      entryCount := s.capturedText.length }

/-- A sequence of `captureText` submissions (time, sender tab, entry)
folded over the aggregator state. -/
def runSubmits (s : BgState) : List (Nat × Option Nat × Entry) → BgState
  | [] => s
  | (now, tab, e) :: rest => runSubmits (captureText now s tab e).1 rest

/-! ### The cross-frame flash relay (content script) -/

def MAX_IFRAME_DEPTH : Nat := 10

def FLASH_COOLDOWN : Nat := 500

/-- Outcome of handling one incoming flash signal: whether a flash overlay
is produced, and the depth forwarded to the parent frame (if any). -/
structure RelayOutcome where
  flashed : Bool
  forwardedDepth : Option Nat
deriving DecidableEq, Repr

/-- `handleChildFlashMessage`: drop signals beyond the maximum depth;
otherwise flash the identified child frame (when capturing and outside
the cooldown window) and forward the signal with an incremented hop
counter unless this frame is the top frame. -/
def handleChildFlashMessage (isTop capturing iframeFound : Bool)
    (lastFlashAt nowMs depth : Nat) : RelayOutcome :=
  if MAX_IFRAME_DEPTH < depth then ⟨false, none⟩
  else
    ⟨iframeFound && capturing && decide (FLASH_COOLDOWN ≤ nowMs - lastFlashAt),
     if isTop then none else some (depth + 1)⟩

/-! ### C4: the output document format

`specSerialize` below is the second, spec-side description of the
document, written from the words of the spec: a header block with
start/end timestamps, duration in whole seconds, entry count and total
size in kilobytes, then for each entry a tag line
`[ordinal] +offsetSeconds s | frameId | url` with a 1-based
three-digit-padded ordinal and the offset rounded to the nearest second,
then the text verbatim, with a blank line separating entries. -/

/-- Follows the spec: the tag line of an entry, `ord` is the 1-based
ordinal. -/
def specTagLine (startMs : Nat) (ord : Nat) (e : Entry) : String :=
  "[" ++ padStart3 (toString ord) ++ "] +" ++
    toString (jsRoundDiv1000 ((e.timestamp : Int) - (startMs : Int))) ++
    "s | " ++ e.frameId ++ " | " ++ e.url

/-- Follows the spec: an entry renders as its tag line and then its text,
written verbatim with no escaping. -/
def specEntryRender (startMs : Nat) (ord : Nat) (e : Entry) : String :=
  specTagLine startMs ord e ++ "\n" ++ e.text

/-- Follows the spec: rendered entries separated by a blank line, with a
final newline closing the last entry. -/
def specBody (startMs : Nat) : Nat → List Entry → String
  | _, [] => ""
  | ord, [e] => specEntryRender startMs ord e ++ "\n"
  | ord, e :: e2 :: rest =>
    specEntryRender startMs ord e ++ "\n\n" ++ specBody startMs (ord + 1) (e2 :: rest)

/-- Follows the spec: the fixed-width header block. -/
def specHeader (startMs nowMs : Nat) (count size : Nat) : String :=
  String.mk (List.replicate 60 '═') ++ "\n" ++ headerTitle ++ "\n" ++
  String.mk (List.replicate 60 '═') ++ "\n\n" ++
  "Started:  " ++ toISO startMs ++ "\n" ++
  "Ended:    " ++ toISO nowMs ++ "\n" ++
  "Duration: " ++ toString (jsRoundDiv1000 ((nowMs : Int) - (startMs : Int))) ++
  " seconds" ++ "\n" ++
  "Entries:  " ++ toString count ++ "\n" ++
  "Size:     " ++ toFixed1KB size ++ " KB" ++ "\n\n" ++
  String.mk (List.replicate 60 '─') ++ "\n"

/-- Follows the spec: header block, then the rendered entries with
1-based ordinals. -/
def specSerialize (startMs nowMs : Nat) (entries : List Entry) (size : Nat) : String :=
  specHeader startMs nowMs entries.length size ++ specBody startMs 1 entries

/-- The three concrete entries of the round-trip instance. -/
def exEntry1 : Entry :=
  ⟨0, "initial", "main", "https://example.com",
   "Welcome to the course overview page."⟩

def exEntry2 : Entry :=
  ⟨2500, "added", "player", "https://example.com/frame",
   "Lesson one: getting started."⟩

def exEntry3 : Entry :=
  ⟨84500, "added", "main", "https://example.com",
   "Verbatim | text [with] pipes; no escaping here."⟩

/-- The document the serializer must produce for the three entries above
with start time 0 and end time 85456 ms (size parameter 218 bytes). -/
def expectedDoc : String :=
  String.mk (List.replicate 60 '═') ++ "\n" ++
  headerTitle ++ "\n" ++
  String.mk (List.replicate 60 '═') ++ "\n\n" ++
  "Started:  1970-01-01T00:00:00.000Z" ++ "\n" ++
  "Ended:    1970-01-01T00:01:25.456Z" ++ "\n" ++
  "Duration: 85 seconds" ++ "\n" ++
  "Entries:  3" ++ "\n" ++
  "Size:     0.2 KB" ++ "\n\n" ++
  String.mk (List.replicate 60 '─') ++ "\n" ++
  "[001] +0s | main | https://example.com" ++ "\n" ++
  "Welcome to the course overview page." ++ "\n\n" ++
  "[002] +3s | player | https://example.com/frame" ++ "\n" ++
  "Lesson one: getting started." ++ "\n\n" ++
  "[003] +85s | main | https://example.com" ++ "\n" ++
  "Verbatim | text [with] pipes; no escaping here." ++ "\n"

/-! ### C3 and C8: counterexample inputs and filter lemmas -/

/-- 100001 letters: the cleaned form exceeds the maximum length, so the
filter truncates and appends the marker instead of rejecting. -/
def bigAllA : List Char := List.replicate 100001 'A'

/-- An opening brace, 99999 letters, a closing brace: the cleaned form
matches the brace-block noise signature, but truncation removes the
closing brace before the noise check runs. -/
def braceInput : List Char := lbrace :: (List.replicate 99999 'A' ++ [rbrace])

/-! ### Helper lemmas about the aggregator step -/

theorem captureText_not_capturing (now : Nat) (s : BgState) (tab : Option Nat)
    (e : Entry) (h : s.isCapturing = false) :
    captureText now s tab e = (s, .notCapturing) := by
  simp [captureText, h]

theorem runSubmits_not_capturing (s : BgState) (h : s.isCapturing = false) :
    ∀ ops, runSubmits s ops = s
  | [] => rfl
  | (now, tab, e) :: rest => by
    rw [runSubmits, captureText_not_capturing now s tab e h]
    exact runSubmits_not_capturing s h rest

theorem captureText_size_step (now : Nat) (s : BgState) (tab : Option Nat) (e : Entry) :
    ((captureText now s tab e).1.isCapturing = true →
      s.currentCaptureSize ≤ (captureText now s tab e).1.currentCaptureSize) ∧
    (s.isCapturing = true → (captureText now s tab e).1.isCapturing = false →
      (captureText now s tab e).1.currentCaptureSize = 0) := by
  cases hc : s.isCapturing
  · simp [captureText, hc]
  · rcases tab with _ | tid
    · simp [captureText, hc]
    · by_cases htab : s.activeTabId = some tid
      · by_cases hdup : entryHash e.text ∈ s.seenHashes
        · simp [captureText, hc, htab, hdup]
        · by_cases hover : MAX_CAPTURE_SIZE <
              s.currentCaptureSize + 2 * jsLength e.text
          · simp [captureText, hc, htab, hdup, hover, stopCapture]
          · simp [captureText, hc, htab, hdup, hover, Nat.le_add_right]
      · simp [captureText, hc, htab]

theorem runSubmits_size_mono (ops : List (Nat × Option Nat × Entry)) :
    ∀ s : BgState, (runSubmits s ops).isCapturing = true →
      s.currentCaptureSize ≤ (runSubmits s ops).currentCaptureSize := by
  induction ops with
  | nil => intro s _; exact Nat.le_refl _
  | cons op rest ih =>
    rcases op with ⟨now, tab, e⟩
    intro s hfin
    rw [runSubmits] at hfin ⊢
    have hs1cap : (captureText now s tab e).1.isCapturing = true := by
      by_contra hno
      have hfalse : (captureText now s tab e).1.isCapturing = false := by
        cases h : (captureText now s tab e).1.isCapturing
        · rfl
        · exact absurd h hno
      rw [runSubmits_not_capturing _ hfalse] at hfin
      rw [hfin] at hfalse
      cases hfalse
    calc s.currentCaptureSize
        ≤ (captureText now s tab e).1.currentCaptureSize :=
          (captureText_size_step now s tab e).1 hs1cap
      _ ≤ (runSubmits (captureText now s tab e).1 rest).currentCaptureSize :=
          ih _ hfin

/-- The non-empty document fact used for the delivery claims: the
serialized output always starts with the 60-character bar. -/
theorem formatOutput_ne_empty (a b : Nat) (es : List Entry) (n : Nat) :
    formatOutput a b es n ≠ "" := by
  intro h
  have hd := congrArg String.length h
  rw [formatOutput] at hd
  simp only [joinNL, String.length_append, String.length_mk,
    List.length_replicate] at hd
  omega

/-! ### C1, C2, C10: submission paths of the aggregator -/

/-- C1: while the aggregator is Recording, a submission from the active
tab whose fingerprint is fresh and whose approximate cost (2 bytes per
character) pushes the cumulative size past the fixed 10 MB budget makes
the handler auto-stop instead of admitting: the outcome is the auto-stop
path, recording flips off, and the entry is not appended (the entry list
is reset). -/
theorem C1_budget_enforcement (now : Nat) (s : BgState) (t : Nat) (e : Entry)
    (hcap : s.isCapturing = true) (htab : s.activeTabId = some t)
    (hfresh : entryHash e.text ∉ s.seenHashes)
    (hover : MAX_CAPTURE_SIZE < s.currentCaptureSize + 2 * jsLength e.text) :
    (captureText now s (some t) e).2.isAutoStopped = true ∧
    (captureText now s (some t) e).1.isCapturing = false ∧
    (captureText now s (some t) e).1.capturedText = [] ∧
    e ∉ (captureText now s (some t) e).1.capturedText := by
  simp [captureText, hcap, htab, hfresh, hover, stopCapture, SubmitResult.isAutoStopped]

theorem C1_witness :
    let s0 : BgState := ⟨true, some 0, [], [], 10485750, some 7⟩
    let e0 : Entry := ⟨1, "added", "main", "u", "0123456789"⟩
    (captureText 99 s0 (some 7) e0).2.isAutoStopped = true ∧
    (captureText 99 s0 (some 7) e0).1.isCapturing = false ∧
    (captureText 99 s0 (some 7) e0).1.capturedText = [] ∧
    e0 ∉ (captureText 99 s0 (some 7) e0).1.capturedText :=
  C1_budget_enforcement 99 _ 7 _ rfl rfl (by decide) (by decide)

/-- C2: submitting an entry to the recording aggregator from the active
tab (fresh fingerprint, within budget) appends exactly that one entry;
a second submission whose text has the same fingerprint is discarded by
the dedupe index and leaves the state — in particular the entry list —
completely unchanged, so exactly one entry is retained. -/
theorem C2_dedup_idempotence (now now2 : Nat) (s : BgState) (t : Nat) (e e2 : Entry)
    (hcap : s.isCapturing = true) (htab : s.activeTabId = some t)
    (hfresh : entryHash e.text ∉ s.seenHashes)
    (hfits : s.currentCaptureSize + 2 * jsLength e.text ≤ MAX_CAPTURE_SIZE)
    (hsame : entryHash e2.text = entryHash e.text) :
    (captureText now s (some t) e).1.capturedText = s.capturedText ++ [e] ∧
    captureText now2 (captureText now s (some t) e).1 (some t) e2 =
      ((captureText now s (some t) e).1, .duplicate) := by
  have hnover : ¬ MAX_CAPTURE_SIZE < s.currentCaptureSize + 2 * jsLength e.text :=
    Nat.not_lt.mpr hfits
  have hstep : captureText now s (some t) e =
      ({ s with seenHashes := entryHash e.text :: s.seenHashes,
                currentCaptureSize := s.currentCaptureSize + 2 * jsLength e.text,
                capturedText := s.capturedText ++ [e] },
       .admitted (s.capturedText.length + 1)) := by
    simp [captureText, hcap, htab, hfresh, hnover]
  rw [hstep]
  constructor
  · rfl
  · simp [captureText, hcap, htab, hsame]

theorem C2_witness :
    let s0 : BgState := ⟨true, some 0, [], [], 0, some 7⟩
    let e0 : Entry := ⟨1, "added", "main", "u", "Hello world, test."⟩
    let e1 : Entry := ⟨5, "added", "frame", "u2", "Hello world, test."⟩
    (captureText 2 s0 (some 7) e0).1.capturedText = [e0] ∧
    captureText 6 (captureText 2 s0 (some 7) e0).1 (some 7) e1 =
      ((captureText 2 s0 (some 7) e0).1, .duplicate) := by
  have h := C2_dedup_idempotence 2 6 ⟨true, some 0, [], [], 0, some 7⟩ 7
    ⟨1, "added", "main", "u", "Hello world, test."⟩
    ⟨5, "added", "frame", "u2", "Hello world, test."⟩
    rfl rfl (by decide) (by decide) rfl
  exact ⟨h.1, h.2⟩

/-- C10 (implicit): a duplicate submission — the fingerprint is already in
the dedupe index — is discarded before the size check: the handler answers
with the duplicate outcome and the whole state (entry list, dedupe index,
cumulative size, recording flag) is unchanged, with no size hypothesis, so
this holds even when the duplicate entry would have pushed the size over
the budget. -/
theorem C10_duplicate_bypasses_budget (now : Nat) (s : BgState) (t : Nat) (e : Entry)
    (hcap : s.isCapturing = true) (htab : s.activeTabId = some t)
    (hdup : entryHash e.text ∈ s.seenHashes) :
    captureText now s (some t) e = (s, .duplicate) := by
  simp [captureText, hcap, htab, hdup]

theorem C10_witness :
    let e0 : Entry := ⟨1, "added", "main", "u", "0123456789"⟩
    let s0 : BgState := ⟨true, some 0, [e0], [entryHash ("0123456789")], 10485758, some 7⟩
    MAX_CAPTURE_SIZE < s0.currentCaptureSize + 2 * jsLength e0.text ∧
    captureText 99 s0 (some 7) e0 = (s0, .duplicate) := by
  refine ⟨by decide, ?_⟩
  exact C10_duplicate_bypasses_budget 99
    ⟨true, some 0, [⟨1, "added", "main", "u", "0123456789"⟩],
     [entryHash ("0123456789")], 10485758, some 7⟩ 7
    ⟨1, "added", "main", "u", "0123456789"⟩ rfl rfl (by decide)

/-! ### C5: relay depth bound -/

/-- C5: an incoming cross-frame flash signal whose hop counter exceeds the
maximum depth of 10 is dropped: no flash overlay is produced and nothing
is forwarded to the parent frame, whatever the frame position, capture
state, child lookup result or cooldown clock. -/
theorem C5_relay_depth_bound (isTop capturing iframeFound : Bool)
    (lastFlashAt nowMs depth : Nat) (h : MAX_IFRAME_DEPTH < depth) :
    handleChildFlashMessage isTop capturing iframeFound lastFlashAt nowMs depth =
      ⟨false, none⟩ := by
  simp [handleChildFlashMessage, h]

theorem C5_witness :
    handleChildFlashMessage false true true 0 1000 11 = ⟨false, none⟩ :=
  C5_relay_depth_bound false true true 0 1000 11 (by decide)

/-! ### C6: size monotonicity and reset on stop -/

/-- C6: the cumulative size never decreases over any sequence of
submissions that leaves the aggregator Recording; and it is reset to zero
exactly on the transition out of Recording — both when a submission
auto-stops the session and when `stopCapture` ends a recording session. -/
theorem C6_size_monotonic :
    (∀ (s : BgState) (ops : List (Nat × Option Nat × Entry)),
      (runSubmits s ops).isCapturing = true →
        s.currentCaptureSize ≤ (runSubmits s ops).currentCaptureSize) ∧
    (∀ (now : Nat) (s : BgState) (tab : Option Nat) (e : Entry),
      s.isCapturing = true → (captureText now s tab e).1.isCapturing = false →
        (captureText now s tab e).1.currentCaptureSize = 0) ∧
    (∀ (now : Nat) (s : BgState), s.isCapturing = true →
      (stopCapture now s).1.currentCaptureSize = 0) := by
  refine ⟨fun s ops => runSubmits_size_mono ops s,
          fun now s tab e => (captureText_size_step now s tab e).2,
          fun now s h => ?_⟩
  simp [stopCapture, h]

theorem C6_witness :
    let e0 : Entry := ⟨1, "added", "main", "u", "Hello world, test."⟩
    let e1 : Entry := ⟨2, "added", "main", "u", "Another line of prose."⟩
    let s0 : BgState := ⟨true, some 0, [], [], 0, some 7⟩
    let sBig : BgState := ⟨true, some 0, [e0], ["h"], 10485759, some 7⟩
    s0.currentCaptureSize ≤
      (runSubmits s0 [(1, some 7, e0), (2, some 7, e1)]).currentCaptureSize ∧
    (captureText 9 sBig (some 7) e1).1.currentCaptureSize = 0 ∧
    (stopCapture 9 s0).1.currentCaptureSize = 0 := by
  refine ⟨C6_size_monotonic.1 _ _ (by decide),
          C6_size_monotonic.2.1 9 _ (some 7) _ rfl (by decide),
          C6_size_monotonic.2.2 9 _ rfl⟩

/-! ### C7: zero-entry stop -/

/-- C7: stopping a Recording session always resets the whole session
state; no file delivery happens when the entry list is empty, while a
non-empty entry list is serialized by `formatOutput` and delivered. -/
theorem C7_zero_entry_stop (now : Nat) (s : BgState) (hcap : s.isCapturing = true) :
    (stopCapture now s).1 =
      { isCapturing := false, captureStartTime := s.captureStartTime,
        capturedText := [], seenHashes := [], currentCaptureSize := 0,
        activeTabId := none } ∧
    (s.capturedText = [] → (stopCapture now s).2 = none) ∧
    (s.capturedText ≠ [] → (stopCapture now s).2 =
      some (formatOutput (s.captureStartTime.getD 0) now s.capturedText
              s.currentCaptureSize)) := by
  refine ⟨by simp [stopCapture, hcap], ?_, ?_⟩
  · intro hempty
    simp [stopCapture, hcap, hempty]
  · intro hne
    have hlen : 0 < s.capturedText.length := List.length_pos.mpr hne
    simp [stopCapture, hcap, hlen, saveCapture, formatOutput_ne_empty]

theorem C7_witness :
    let s0 : BgState := ⟨true, some 0, [], ["h"], 40, some 3⟩
    (stopCapture 5 s0).2 = none ∧
    (stopCapture 5 s0).1 = ⟨false, some 0, [], [], 0, none⟩ := by
  have h := C7_zero_entry_stop 5 ⟨true, some 0, [], ["h"], 40, some 3⟩ rfl
  exact ⟨h.2.1 rfl, h.1⟩

/-! ### C9: state query contract -/

/-- C9: a plain (popup) state query returns the global recording flag,
start time and entry count; the tab-scoped variant from a content script
returns the same start time and entry count, and its recording flag is
true exactly when the aggregator is recording and the querying tab is the
actively bound one. -/
theorem C9_state_query (s : BgState) (t : Nat) :
    (getState s none).isCapturing = s.isCapturing ∧
    (getState s none).startTime = s.captureStartTime.map toISO ∧
    (getState s none).entryCount = s.capturedText.length ∧
    ((getState s (some t)).isCapturing = true ↔
      (s.isCapturing = true ∧ s.activeTabId = some t)) ∧
    (getState s (some t)).startTime = s.captureStartTime.map toISO ∧
    (getState s (some t)).entryCount = s.capturedText.length := by
  refine ⟨rfl, rfl, rfl, ?_, rfl, rfl⟩
  simp [getState]

theorem entryTag_eq_specTagLine (startMs i : Nat) (e : Entry) :
    entryTag startMs i e = specTagLine startMs (i + 1) e := rfl

theorem joinNL_entryBlocks_eq_specBody (startMs : Nat) :
    ∀ (es : List Entry) (i : Nat),
      joinNL (entryBlocks startMs i es) = specBody startMs (i + 1) es := by
  intro es
  induction es with
  | nil => intro i; rfl
  | cons e rest ih =>
    intro i
    cases rest with
    | nil =>
      apply String.ext
      simp [entryBlocks, joinNL, entryBlock, specBody, specEntryRender,
        entryTag_eq_specTagLine, String.data_append]
    | cons e2 rest2 =>
      have hstep : entryBlocks startMs i (e :: e2 :: rest2) =
          entryBlock startMs i e :: entryBlocks startMs (i + 1) (e2 :: rest2) := rfl
      have hne : entryBlocks startMs (i + 1) (e2 :: rest2) =
          entryBlock startMs (i + 1) e2 :: entryBlocks startMs (i + 2) rest2 := rfl
      rw [hstep, hne, joinNL]
      rw [← hne, ih (i + 1)]
      apply String.ext
      have h2 : ("\n\n" : String).data = ['\n', '\n'] := rfl
      simp [entryBlock, joinNL, specBody, specEntryRender,
        entryTag_eq_specTagLine, String.data_append, h2]

theorem nl_pair (s : String) : "\n" ++ ("\n" ++ s) = "\n\n" ++ s := by
  rw [← String.append_assoc]
  rfl

theorem formatOutput_eq_specSerialize (startMs nowMs : Nat) (entries : List Entry)
    (size : Nat) :
    formatOutput startMs nowMs entries size = specSerialize startMs nowMs entries size := by
  rw [formatOutput, specSerialize, ← joinNL_entryBlocks_eq_specBody startMs entries 0,
    specHeader]
  simp only [joinNL, String.append_assoc, String.empty_append, String.append_empty,
    nl_pair]

set_option maxRecDepth 8000 in
/-- C4: the serializer produces, for every start time, end time, entry
list and size, exactly the spec-side document (header block, then for
each entry the `[ordinal] +offsetSeconds s | frameId | url` tag line
with 1-based zero-padded ordinal and nearest-second offset, the verbatim
text, and blank-line separation); instantiated on a concrete 3-entry
session whose first line renders as
`[001] +0s | main | https://example.com`. -/
theorem C4_output_serializer :
    (∀ (startMs nowMs : Nat) (entries : List Entry) (size : Nat),
      formatOutput startMs nowMs entries size =
        specSerialize startMs nowMs entries size) ∧
    formatOutput 0 85456 [exEntry1, exEntry2, exEntry3] 218 = expectedDoc := by
  refine ⟨formatOutput_eq_specSerialize, ?_⟩
  decide

/-! ### Filter lemmas for the oversized counterexamples -/

theorem dropWhile_all_neg {p : Char → Bool} :
    ∀ l : List Char, (∀ c ∈ l, p c = false) → l.dropWhile p = l
  | [], _ => rfl
  | c :: cs, h => by
    rw [List.dropWhile_cons, h c (List.mem_cons_self c cs)]
    simp

theorem collapseWsAux_all_neg :
    ∀ (l : List Char), (∀ c ∈ l, isJsWs c = false) → ∀ b, collapseWsAux b l = l
  | [], _, _ => rfl
  | c :: cs, h, b => by
    rw [collapseWsAux, h c (List.mem_cons_self c cs)]
    simp only [Bool.false_eq_true, if_false]
    rw [collapseWsAux_all_neg cs (fun x hx => h x (List.mem_cons_of_mem c hx)) false]

/-- Text with no whitespace and no zero-width characters is untouched by
`cleanText`. -/
theorem cleanText_all_clean (l : List Char)
    (h : ∀ c ∈ l, isJsWs c = false ∧ isZeroWidth c = false) :
    cleanText l = l := by
  rw [cleanText]
  have hcol : collapseWsAux false l = l :=
    collapseWsAux_all_neg l (fun c hc => (h c hc).1) false
  rw [hcol]
  have hfil : l.filter (fun c => !isZeroWidth c) = l :=
    List.filter_eq_self.mpr (fun c hc => by rw [(h c hc).2]; rfl)
  rw [hfil]
  rw [dropWhile_all_neg l (fun c hc => (h c hc).1)]
  rw [dropWhile_all_neg l.reverse
    (fun c hc => (h c (List.mem_reverse.mp hc)).1)]
  exact List.reverse_reverse l

theorem anySuffix_cons (p : List Char → Bool) (c : Char) (cs : List Char) :
    anySuffix p (c :: cs) = (p (c :: cs) || anySuffix p cs) := rfl

/-- The workhorse for the oversized counterexamples: a position matcher
that fails on the marker alone, on a letter before the marker, and on any
text starting with two letters, fails at every position of
`replicate k A ++ marker`. -/
theorem anySuffix_replicateA (p : List Char → Bool) (m : List Char)
    (hm : anySuffix p m = false) (h1 : p ('A' :: m) = false)
    (h0 : ∀ ys, p ('A' :: 'A' :: ys) = false) :
    ∀ k, anySuffix p (List.replicate k 'A' ++ m) = false := by
  intro k
  induction k with
  | zero => simpa using hm
  | succ n ih =>
    rw [List.replicate_succ, List.cons_append, anySuffix_cons, ih, Bool.or_false]
    cases n with
    | zero => simpa using h1
    | succ n2 => rw [List.replicate_succ, List.cons_append]; exact h0 _

theorem nzHashRule_A : ∀ xs : List Char, nzHashRule ('A' :: xs) = false := fun _ => rfl

theorem nzDotRule_A : ∀ xs : List Char, nzDotRule ('A' :: xs) = false := fun _ => rfl

theorem nzKeyframes_A : ∀ xs : List Char, nzKeyframes ('A' :: xs) = false := fun _ => rfl

theorem nzMedia_A : ∀ xs : List Char, nzMedia ('A' :: xs) = false := fun _ => rfl

theorem nzFontFace_A : ∀ xs : List Char, nzFontFace ('A' :: xs) = false := fun _ => rfl

theorem nzBraceBlock_A : ∀ xs : List Char, nzBraceBlock ('A' :: xs) = false := fun _ => rfl

theorem nzPctRule_A : ∀ xs : List Char, nzPctRule ('A' :: xs) = false := fun _ => rfl

theorem nzHashRule_lb : ∀ xs : List Char, nzHashRule (lbrace :: xs) = false := fun _ => rfl

theorem nzDotRule_lb : ∀ xs : List Char, nzDotRule (lbrace :: xs) = false := fun _ => rfl

theorem nzKeyframes_lb : ∀ xs : List Char, nzKeyframes (lbrace :: xs) = false := fun _ => rfl

theorem nzMedia_lb : ∀ xs : List Char, nzMedia (lbrace :: xs) = false := fun _ => rfl

theorem nzFontFace_lb : ∀ xs : List Char, nzFontFace (lbrace :: xs) = false := fun _ => rfl

theorem nzPctRule_lb : ∀ xs : List Char, nzPctRule (lbrace :: xs) = false := fun _ => rfl

theorem anySuffix_atBoxSizing_repA (k : Nat) :
    anySuffix atBoxSizing (List.replicate k 'A' ++ truncMarker) = false :=
  anySuffix_replicateA atBoxSizing truncMarker rfl rfl (fun _ => rfl) k

theorem anySuffix_atFontFamily_repA (k : Nat) :
    anySuffix atFontFamily (List.replicate k 'A' ++ truncMarker) = false :=
  anySuffix_replicateA atFontFamily truncMarker rfl rfl (fun _ => rfl) k

theorem anySuffix_atWebkit_repA (k : Nat) :
    anySuffix atWebkit (List.replicate k 'A' ++ truncMarker) = false :=
  anySuffix_replicateA atWebkit truncMarker rfl rfl (fun _ => rfl) k

theorem anySuffix_atWCssReset_repA (k : Nat) :
    anySuffix atWCssReset (List.replicate k 'A' ++ truncMarker) = false :=
  anySuffix_replicateA atWCssReset truncMarker rfl rfl (fun _ => rfl) k

theorem anySuffix_atWistia_repA (k : Nat) :
    anySuffix atWistia (List.replicate k 'A' ++ truncMarker) = false :=
  anySuffix_replicateA atWistia truncMarker rfl rfl (fun _ => rfl) k

theorem anySuffix_atOpacity_repA (k : Nat) :
    anySuffix atOpacity (List.replicate k 'A' ++ truncMarker) = false :=
  anySuffix_replicateA atOpacity truncMarker rfl rfl (fun _ => rfl) k

theorem anySuffix_atAnimation_repA (k : Nat) :
    anySuffix atAnimation (List.replicate k 'A' ++ truncMarker) = false :=
  anySuffix_replicateA atAnimation truncMarker rfl rfl (fun _ => rfl) k

theorem anySuffix_atTransform_repA (k : Nat) :
    anySuffix atTransform (List.replicate k 'A' ++ truncMarker) = false :=
  anySuffix_replicateA atTransform truncMarker rfl rfl (fun _ => rfl) k

theorem anySuffix_atBase64_repA (k : Nat) :
    anySuffix atBase64 (List.replicate k 'A' ++ truncMarker) = false :=
  anySuffix_replicateA atBase64 truncMarker rfl rfl (fun _ => rfl) k

theorem anySuffix_atDataApp_repA (k : Nat) :
    anySuffix atDataApp (List.replicate k 'A' ++ truncMarker) = false :=
  anySuffix_replicateA atDataApp truncMarker rfl rfl (fun _ => rfl) k

theorem anySuffix_atDataImg_repA (k : Nat) :
    anySuffix atDataImg (List.replicate k 'A' ++ truncMarker) = false :=
  anySuffix_replicateA atDataImg truncMarker rfl rfl (fun _ => rfl) k

theorem anySuffix_atUnicodeRange_repA (k : Nat) :
    anySuffix atUnicodeRange (List.replicate k 'A' ++ truncMarker) = false :=
  anySuffix_replicateA atUnicodeRange truncMarker rfl rfl (fun _ => rfl) k

theorem anySuffix_atFontFeature_repA (k : Nat) :
    anySuffix atFontFeature (List.replicate k 'A' ++ truncMarker) = false :=
  anySuffix_replicateA atFontFeature truncMarker rfl rfl (fun _ => rfl) k

theorem anySuffix_atSrcUrl_repA (k : Nat) :
    anySuffix atSrcUrl (List.replicate k 'A' ++ truncMarker) = false :=
  anySuffix_replicateA atSrcUrl truncMarker rfl rfl (fun _ => rfl) k

theorem matchesNoise_repA (k : Nat) :
    matchesNoise (List.replicate (k + 1) 'A' ++ truncMarker) = false := by
  rw [matchesNoise]
  rw [anySuffix_atBoxSizing_repA, anySuffix_atFontFamily_repA,
    anySuffix_atWebkit_repA, anySuffix_atWCssReset_repA, anySuffix_atWistia_repA,
    anySuffix_atOpacity_repA, anySuffix_atAnimation_repA, anySuffix_atTransform_repA,
    anySuffix_atBase64_repA, anySuffix_atDataApp_repA, anySuffix_atDataImg_repA,
    anySuffix_atUnicodeRange_repA, anySuffix_atFontFeature_repA,
    anySuffix_atSrcUrl_repA]
  rw [List.replicate_succ, List.cons_append]
  rw [nzHashRule_A, nzDotRule_A, nzKeyframes_A, nzMedia_A, nzFontFace_A,
    nzBraceBlock_A, nzPctRule_A]
  rfl

theorem nzBraceBlock_lb_repA (k : Nat) :
    nzBraceBlock (lbrace :: (List.replicate k 'A' ++ truncMarker)) = false := by
  have h1 : nzBraceBlock (lbrace :: (List.replicate k 'A' ++ truncMarker)) =
      (decide (lbrace = lbrace) &&
        decide ((((List.replicate k 'A' ++ truncMarker).reverse).dropWhile isJsWs).head? =
          some rbrace)) := rfl
  rw [h1]
  have hrev : (List.replicate k 'A' ++ truncMarker).reverse =
      ']' :: ("erutpac ot gnol oot[ ".data ++ List.replicate k 'A') := by
    rw [List.reverse_append, List.reverse_replicate]
    rfl
  rw [hrev, List.dropWhile_cons]
  simp [isJsWs, rbrace]

theorem matchesNoise_lb_repA (k : Nat) :
    matchesNoise (lbrace :: (List.replicate k 'A' ++ truncMarker)) = false := by
  rw [matchesNoise]
  rw [nzHashRule_lb, nzDotRule_lb, nzKeyframes_lb, nzMedia_lb, nzFontFace_lb,
    nzPctRule_lb, nzBraceBlock_lb_repA]
  rw [anySuffix_cons atBoxSizing, anySuffix_cons atFontFamily,
    anySuffix_cons atWebkit, anySuffix_cons atWCssReset, anySuffix_cons atWistia,
    anySuffix_cons atOpacity, anySuffix_cons atAnimation, anySuffix_cons atTransform,
    anySuffix_cons atBase64, anySuffix_cons atDataApp, anySuffix_cons atDataImg,
    anySuffix_cons atUnicodeRange, anySuffix_cons atFontFeature,
    anySuffix_cons atSrcUrl]
  rw [anySuffix_atBoxSizing_repA, anySuffix_atFontFamily_repA,
    anySuffix_atWebkit_repA, anySuffix_atWCssReset_repA, anySuffix_atWistia_repA,
    anySuffix_atOpacity_repA, anySuffix_atAnimation_repA, anySuffix_atTransform_repA,
    anySuffix_atBase64_repA, anySuffix_atDataApp_repA, anySuffix_atDataImg_repA,
    anySuffix_atUnicodeRange_repA, anySuffix_atFontFeature_repA,
    anySuffix_atSrcUrl_repA]
  rfl

theorem indicatorNoise_A6 :
    ∀ xs : List Char,
      indicatorNoise ('A' :: 'A' :: 'A' :: 'A' :: 'A' :: 'A' :: xs) = false :=
  fun _ => rfl

theorem indicatorNoise_lb6 :
    ∀ xs : List Char,
      indicatorNoise (lbrace :: 'A' :: 'A' :: 'A' :: 'A' :: 'A' :: xs) = false :=
  fun _ => rfl

theorem countSpecial_repA (k : Nat) (m : List Char) :
    countSpecial (List.replicate k 'A' ++ m) = countSpecial m := by
  rw [countSpecial, countSpecial, List.countP_append]
  have h0 : (List.replicate k 'A').countP
      (fun c => c = lbrace || c = rbrace || c = ';' || c = ':') = 0 :=
    List.countP_eq_zero.mpr (fun a ha => by
      rw [List.eq_of_mem_replicate ha]; decide)
  rw [h0, Nat.zero_add]

/-- Evaluation of `processText` on an input that survives every filter. -/
theorem processText_accepts (st : FrameState) (now : Nat) (f u src : String)
    (text out : List Char)
    (hout : truncateJs (cleanText text) = out)
    (hlen : ¬ out.length < MIN_TEXT_LENGTH)
    (hind : indicatorNoise out = false)
    (hnz : matchesNoise out = false)
    (hcss : mostlyCss out = false)
    (hseen : st.seenText.contains (entryHash (String.mk out)) = false) :
    processText st now f u src text =
      ({ seenText := entryHash (String.mk out) :: st.seenText },
       some { timestamp := now, source := src, frameId := f, url := u,
              text := String.mk out }) := by
  rw [processText]
  simp only [hout, hlen, hind, hnz, hcss, hseen, Bool.false_eq_true, if_false,
    ite_false, if_neg, Bool.not_eq_true]

/-- Any path of `processText` that rejects returns the state unchanged and
no entry; the noise check in particular. -/
theorem processText_rejects_of_noise (st : FrameState) (now : Nat)
    (f u src : String) (text : List Char)
    (h : matchesNoise (truncateJs (cleanText text)) = true) :
    (processText st now f u src text).2 = none := by
  rw [processText]
  by_cases h1 : (truncateJs (cleanText text)).length < MIN_TEXT_LENGTH
  · simp [h1]
  · by_cases h2 : indicatorNoise (truncateJs (cleanText text)) = true
    · simp [h1, h2]
    · simp [h1, h2, h]

theorem truncMarker_length : truncMarker.length = 22 := rfl

theorem cleanText_bigAllA : cleanText bigAllA = bigAllA :=
  cleanText_all_clean _ (fun c hc => by
    rw [List.eq_of_mem_replicate hc]; exact ⟨rfl, rfl⟩)

theorem truncateJs_bigAllA :
    truncateJs bigAllA = List.replicate 100000 'A' ++ truncMarker := by
  rw [truncateJs, bigAllA, List.length_replicate]
  rw [if_pos (by norm_num [MAX_TEXT_LENGTH])]
  rw [List.take_replicate]
  norm_num [MAX_TEXT_LENGTH]

theorem bigOut_six : List.replicate 100000 'A' ++ truncMarker =
    'A' :: 'A' :: 'A' :: 'A' :: 'A' :: 'A' ::
      (List.replicate 99994 'A' ++ truncMarker) := by
  rw [show (100000 : Nat) = 6 + 99994 from by norm_num, List.replicate_add,
    List.append_assoc]
  rfl

theorem bigOut_length :
    (List.replicate 100000 'A' ++ truncMarker).length = 100022 := by
  rw [List.length_append, List.length_replicate, truncMarker_length]

theorem bigOut_noise : matchesNoise (List.replicate 100000 'A' ++ truncMarker) = false := by
  rw [show (100000 : Nat) = 99999 + 1 from by norm_num]
  exact matchesNoise_repA 99999

theorem bigOut_css : mostlyCss (List.replicate 100000 'A' ++ truncMarker) = false := by
  rw [mostlyCss, countSpecial_repA, bigOut_length]
  decide

theorem bigOut_indicator :
    indicatorNoise (List.replicate 100000 'A' ++ truncMarker) = false := by
  rw [bigOut_six]
  exact indicatorNoise_A6 _

/-- C3 counterexample: 100001 letters survive every filter; the entry is
constructed with text of length 100022 = 100000 + 22, strictly above the
claimed 100,000-character maximum. -/
theorem C3_counterexample :
    (processText ⟨[]⟩ 0 "main" ("https://example.com") "initial" bigAllA).2 =
      some ⟨0, "initial", "main", "https://example.com",
            String.mk (List.replicate 100000 'A' ++ truncMarker)⟩ ∧
    jsLength (String.mk (List.replicate 100000 'A' ++ truncMarker)) = 100022 ∧
    100000 < 100022 := by
  have hacc := processText_accepts ⟨[]⟩ 0 "main" ("https://example.com") "initial"
    bigAllA (List.replicate 100000 'A' ++ truncMarker)
    (by rw [cleanText_bigAllA, truncateJs_bigAllA])
    (by rw [bigOut_length]; decide)
    bigOut_indicator bigOut_noise bigOut_css rfl
  refine ⟨?_, bigOut_length, by norm_num⟩
  rw [hacc]

theorem truncateJs_length_le (l : List Char) :
    (truncateJs l).length ≤ MAX_TEXT_LENGTH + 22 := by
  rw [truncateJs]
  split
  · rw [List.length_append, List.length_take, truncMarker_length]
    omega
  · next hn =>
    rw [Nat.not_lt] at hn
    omega

/-- C3 (amended): every entry constructed by `processText` has text of
length at least the 10-character minimum and at most 100022 characters —
the 100,000-character truncation point plus the 22-character marker
appended by truncation; the bound is enforced by truncation, never by
rejecting an over-long candidate. -/
theorem C3_entry_text_bounds (st : FrameState) (now : Nat) (f u src : String)
    (text : List Char) (st2 : FrameState) (e : Entry)
    (h : processText st now f u src text = (st2, some e)) :
    MIN_TEXT_LENGTH ≤ jsLength e.text ∧
    jsLength e.text ≤ MAX_TEXT_LENGTH + 22 := by
  simp only [processText] at h
  by_cases h1 : (truncateJs (cleanText text)).length < MIN_TEXT_LENGTH
  · rw [if_pos h1] at h
    injection h with ha hb
    exact Option.noConfusion hb
  · rw [if_neg h1] at h
    by_cases h2 : indicatorNoise (truncateJs (cleanText text)) = true
    · rw [if_pos h2] at h
      injection h with ha hb
      exact Option.noConfusion hb
    · rw [if_neg h2] at h
      by_cases h3 : matchesNoise (truncateJs (cleanText text)) = true
      · rw [if_pos h3] at h
        injection h with ha hb
        exact Option.noConfusion hb
      · rw [if_neg h3] at h
        by_cases h4 : mostlyCss (truncateJs (cleanText text)) = true
        · rw [if_pos h4] at h
          injection h with ha hb
          exact Option.noConfusion hb
        · rw [if_neg h4] at h
          by_cases h5 : st.seenText.contains
              (entryHash (String.mk (truncateJs (cleanText text)))) = true
          · rw [if_pos h5] at h
            injection h with ha hb
            exact Option.noConfusion hb
          · rw [if_neg h5] at h
            injection h with ha hb
            injection hb with hc
            rw [← hc]
            exact ⟨Nat.not_lt.mp h1, truncateJs_length_le _⟩

theorem C3_witness :
    MIN_TEXT_LENGTH ≤ jsLength ("Hello world, test.") ∧
    jsLength ("Hello world, test.") ≤ MAX_TEXT_LENGTH + 22 :=
  C3_entry_text_bounds ⟨[]⟩ 0 "main" "u" "initial" ("Hello world, test.".data)
    ⟨["Hello world, test.18"]⟩
    ⟨0, "initial", "main", "u", "Hello world, test."⟩ (by decide)

theorem cleanText_braceInput : cleanText braceInput = braceInput := by
  apply cleanText_all_clean
  intro c hc
  rw [braceInput] at hc
  rcases List.mem_cons.mp hc with h | h
  · rw [h]; exact ⟨rfl, rfl⟩
  · rcases List.mem_append.mp h with h2 | h2
    · rw [List.eq_of_mem_replicate h2]; exact ⟨rfl, rfl⟩
    · rw [List.mem_singleton.mp h2]; exact ⟨rfl, rfl⟩

theorem nzBraceBlock_braceInput : nzBraceBlock braceInput = true := by
  have h1 : nzBraceBlock braceInput =
      (decide (lbrace = lbrace) &&
        decide ((((List.replicate 99999 'A' ++ [rbrace]).reverse).dropWhile
          isJsWs).head? = some rbrace)) := rfl
  rw [h1, List.reverse_append, List.reverse_replicate]
  rw [show ([rbrace] : List Char).reverse = [rbrace] from rfl]
  rw [List.singleton_append, List.dropWhile_cons]
  rw [show isJsWs rbrace = false from rfl]
  simp only [Bool.false_eq_true, if_false]
  rfl

theorem matchesNoise_braceInput : matchesNoise (cleanText braceInput) = true := by
  rw [cleanText_braceInput, matchesNoise, nzBraceBlock_braceInput]
  simp

theorem truncateJs_braceInput :
    truncateJs braceInput = lbrace :: (List.replicate 99999 'A' ++ truncMarker) := by
  rw [truncateJs, braceInput]
  rw [List.length_cons, List.length_append, List.length_replicate]
  rw [if_pos (by norm_num [MAX_TEXT_LENGTH])]
  rw [show MAX_TEXT_LENGTH = 99999 + 1 from by norm_num [MAX_TEXT_LENGTH]]
  rw [List.take_succ_cons]
  rw [List.take_left' (List.length_replicate 99999 'A')]
  rw [List.cons_append]

theorem braceOut_length :
    (lbrace :: (List.replicate 99999 'A' ++ truncMarker)).length = 100022 := by
  rw [List.length_cons, List.length_append, List.length_replicate, truncMarker_length]

theorem braceOut_indicator :
    indicatorNoise (lbrace :: (List.replicate 99999 'A' ++ truncMarker)) = false := by
  rw [show (99999 : Nat) = 5 + 99994 from by norm_num, List.replicate_add,
    List.append_assoc]
  exact indicatorNoise_lb6 _

theorem braceOut_css :
    mostlyCss (lbrace :: (List.replicate 99999 'A' ++ truncMarker)) = false := by
  rw [mostlyCss]
  have hc : countSpecial (lbrace :: (List.replicate 99999 'A' ++ truncMarker)) = 1 := by
    rw [countSpecial, List.countP_cons, List.countP_append]
    have h0 : (List.replicate 99999 'A').countP
        (fun c => c = lbrace || c = rbrace || c = ';' || c = ':') = 0 :=
      List.countP_eq_zero.mpr (fun a ha => by
        rw [List.eq_of_mem_replicate ha]; decide)
    rw [h0]
    decide
  rw [hc, braceOut_length]
  decide

/-- C8 counterexample: the cleaned form of the brace input matches the
brace-block noise signature, yet the filter constructs an entry from it —
truncation removes the closing brace before the noise check runs. -/
theorem C8_counterexample :
    matchesNoise (cleanText braceInput) = true ∧
    (processText ⟨[]⟩ 0 "main" ("https://example.com") "initial" braceInput).2 =
      some ⟨0, "initial", "main", "https://example.com",
            String.mk (lbrace :: (List.replicate 99999 'A' ++ truncMarker))⟩ := by
  refine ⟨matchesNoise_braceInput, ?_⟩
  have hacc := processText_accepts ⟨[]⟩ 0 "main" ("https://example.com") "initial"
    braceInput (lbrace :: (List.replicate 99999 'A' ++ truncMarker))
    (by rw [cleanText_braceInput, truncateJs_braceInput])
    (by rw [braceOut_length]; decide)
    braceOut_indicator (matchesNoise_lb_repA 99999) braceOut_css rfl
  rw [hacc]

/-- C8 (amended): every text input whose cleaned form, after the
100,000-character truncation step that precedes the noise check, matches
one of the fixed noise signatures is rejected by the Text Filter — no
entry is produced — regardless of the input length. -/
theorem C8_noise_rejection (st : FrameState) (now : Nat) (f u src : String)
    (text : List Char)
    (h : matchesNoise (truncateJs (cleanText text)) = true) :
    (processText st now f u src text).2 = none :=
  processText_rejects_of_noise st now f u src text h

theorem C8_witness :
    matchesNoise (truncateJs (cleanText ("@keyframes spin rotate".data))) = true ∧
    (processText ⟨[]⟩ 0 "main" "u" "initial" ("@keyframes spin rotate".data)).2 =
      none :=
  ⟨by decide, C8_noise_rejection ⟨[]⟩ 0 "main" "u" "initial"
    ("@keyframes spin rotate".data) (by decide)⟩
